import Mathlib

/-!
# Verification of the llm-cli conversation core

A shallow embedding of the `llm_cli` package (files `core.py`, `utils.py`,
`cli.py`) together with proofs about the behaviour described in its
specification.  Python strings are modelled as `List Char` (sequences of
Unicode scalar values), byte strings as `List Nat` with every element below
256, SQLite's `conversations` table as a `List Turn` in rowid (insertion)
order, and the external collaborators (clipboard, HTTP endpoints, retrieval
provider, clock) as explicit oracle inputs in a `World` structure.
-/

namespace LlmCli

/-! ## Base64 (model of Python's `base64.b64encode` / `base64.b64decode`)

`utils.encode_base64` stores text as `base64.b64encode(s.encode()).decode()`;
`utils.decode_base64` inverts it with `base64.b64decode(s.encode()).decode()`.
We model the byte-level base64 coder here and UTF-8 below.
-/

/-- The standard base64 alphabet used by `base64.b64encode`. -/
def b64Alphabet : List Char :=
  "ABCDEFGHIJKLMNOPQRSTUVWXYZabcdefghijklmnopqrstuvwxyz0123456789+/".data

/-- Character for a sextet value (0..63). -/
def b64Char (n : Nat) : Char := b64Alphabet.getD n 'A'

/-- Sextet value of an alphabet character (first index in the alphabet). -/
def b64Val (c : Char) : Nat := b64Alphabet.findIdx (fun x => x == c)

/-- Base64-encode a byte list, three bytes to four characters, with `'='`
padding exactly as `base64.b64encode` produces it. -/
def b64EncodeBytes : List Nat → List Char
  | [] => []
  | [a] => [b64Char (a / 4), b64Char (a % 4 * 16), '=', '=']
  | [a, b] => [b64Char (a / 4), b64Char (a % 4 * 16 + b / 16), b64Char (b % 16 * 4), '=']
  | a :: b :: c :: rest =>
    b64Char (a / 4) :: b64Char (a % 4 * 16 + b / 16) :: b64Char (b % 16 * 4 + c / 64) ::
      b64Char (c % 64) :: b64EncodeBytes rest

/-- Base64-decode a character list, four characters to three bytes, honouring
trailing `'='` padding.  On the well-formed strings produced by
`b64EncodeBytes` this agrees with `base64.b64decode`. -/
def b64DecodeBytes : List Char → List Nat
  | w :: x :: y :: z :: rest =>
    if z = '=' then
      if y = '=' then [b64Val w * 4 + b64Val x / 16]
      else [b64Val w * 4 + b64Val x / 16, b64Val x % 16 * 16 + b64Val y / 4]
    else
      (b64Val w * 4 + b64Val x / 16) ::
        (b64Val x % 16 * 16 + b64Val y / 4) ::
          (b64Val y % 4 * 64 + b64Val z) :: b64DecodeBytes rest
  | _ => []

theorem b64Val_b64Char_fin : ∀ n : Fin 64, b64Val (b64Char n.val) = n.val := by decide

theorem b64Val_b64Char {n : Nat} (h : n < 64) : b64Val (b64Char n) = n :=
  b64Val_b64Char_fin ⟨n, h⟩

theorem b64Char_ne_pad_fin : ∀ n : Fin 64, b64Char n.val ≠ '=' := by decide

theorem b64Char_ne_pad {n : Nat} (h : n < 64) : b64Char n ≠ '=' :=
  b64Char_ne_pad_fin ⟨n, h⟩

/-- Decoding after encoding is the identity on byte lists. -/
theorem b64_roundtrip : ∀ bs : List Nat, (∀ x ∈ bs, x < 256) →
    b64DecodeBytes (b64EncodeBytes bs) = bs
  | [], _ => rfl
  | [a], h => by
    have ha : a < 256 := h a (by simp)
    have e1 := b64Val_b64Char (n := a / 4) (by omega)
    have e2 := b64Val_b64Char (n := a % 4 * 16) (by omega)
    simp [b64EncodeBytes, b64DecodeBytes, e1, e2]
    omega
  | [a, b], h => by
    have ha : a < 256 := h a (by simp)
    have hb : b < 256 := h b (by simp)
    have e1 := b64Val_b64Char (n := a / 4) (by omega)
    have e2 := b64Val_b64Char (n := a % 4 * 16 + b / 16) (by omega)
    have e3 := b64Val_b64Char (n := b % 16 * 4) (by omega)
    have ne1 := b64Char_ne_pad (n := b % 16 * 4) (by omega)
    simp [b64EncodeBytes, b64DecodeBytes, e1, e2, e3, ne1]
    constructor
    · omega
    · omega
  | a :: b :: c :: rest, h => by
    have ha : a < 256 := h a (by simp)
    have hb : b < 256 := h b (by simp)
    have hc : c < 256 := h c (by simp)
    have ih := b64_roundtrip rest (fun x hx => h x (by simp [hx]))
    have e1 := b64Val_b64Char (n := a / 4) (by omega)
    have e2 := b64Val_b64Char (n := a % 4 * 16 + b / 16) (by omega)
    have e3 := b64Val_b64Char (n := b % 16 * 4 + c / 64) (by omega)
    have e4 := b64Val_b64Char (n := c % 64) (by omega)
    have ne1 := b64Char_ne_pad (n := c % 64) (by omega)
    simp [b64EncodeBytes, b64DecodeBytes, e1, e2, e3, e4, ne1, ih]
    refine ⟨by omega, by omega, by omega⟩

/-! ## UTF-8 (model of Python's `str.encode` / `bytes.decode`) -/

/-- UTF-8 encoding of one Unicode scalar value. -/
def utf8EncodeChar (c : Nat) : List Nat :=
  if c < 128 then [c]
  else if c < 2048 then [192 + c / 64, 128 + c % 64]
  else if c < 65536 then [224 + c / 4096, 128 + c / 64 % 64, 128 + c % 64]
  else [240 + c / 262144, 128 + c / 4096 % 64, 128 + c / 64 % 64, 128 + c % 64]

/-- UTF-8 encoding of a code-point sequence. -/
def utf8Encode : List Nat → List Nat
  | [] => []
  | c :: s => utf8EncodeChar c ++ utf8Encode s

mutual

/-- UTF-8 decoding back to code points; `none` on a malformed sequence
(Python raises there, which `decode_base64`'s handler turns into `""`).
Split into one helper per sequence length to keep the recursion simple. -/
def utf8Decode : List Nat → Option (List Nat)
  | [] => some []
  | b :: rest =>
    if b < 128 then (utf8Decode rest).map (fun l => b :: l)
    else if b < 192 then none
    else if b < 224 then utf8Decode2 b rest
    else if b < 240 then utf8Decode3 b rest
    else utf8Decode4 b rest
termination_by l => 2 * l.length

def utf8Decode2 (b : Nat) : List Nat → Option (List Nat)
  | b1 :: rest1 =>
    if 128 ≤ b1 ∧ b1 < 192 then
      (utf8Decode rest1).map (fun l => ((b - 192) * 64 + (b1 - 128)) :: l)
    else none
  | [] => none
termination_by l => 2 * l.length + 1

def utf8Decode3 (b : Nat) : List Nat → Option (List Nat)
  | b1 :: b2 :: rest2 =>
    if (128 ≤ b1 ∧ b1 < 192) ∧ 128 ≤ b2 ∧ b2 < 192 then
      (utf8Decode rest2).map
        (fun l => ((b - 224) * 4096 + (b1 - 128) * 64 + (b2 - 128)) :: l)
    else none
  | _ => none
termination_by l => 2 * l.length + 1

def utf8Decode4 (b : Nat) : List Nat → Option (List Nat)
  | b1 :: b2 :: b3 :: rest3 =>
    if (128 ≤ b1 ∧ b1 < 192) ∧ (128 ≤ b2 ∧ b2 < 192) ∧ 128 ≤ b3 ∧ b3 < 192 then
      (utf8Decode rest3).map
        (fun l =>
          ((b - 240) * 262144 + (b1 - 128) * 4096 + (b2 - 128) * 64 + (b3 - 128)) :: l)
    else none
  | _ => none
termination_by l => 2 * l.length + 1

end

theorem utf8EncodeChar_lt {c : Nat} (h : c < 1114112) : ∀ x ∈ utf8EncodeChar c, x < 256 := by
  intro x hx
  unfold utf8EncodeChar at hx
  split at hx
  · simp at hx; omega
  · split at hx
    · simp at hx; omega
    · split at hx
      · simp at hx; omega
      · simp at hx; omega

theorem utf8Encode_lt : ∀ s : List Nat, (∀ c ∈ s, c < 1114112) →
    ∀ x ∈ utf8Encode s, x < 256
  | [], _ => by simp [utf8Encode]
  | c :: s, h => by
    intro x hx
    simp only [utf8Encode, List.mem_append] at hx
    rcases hx with hx | hx
    · exact utf8EncodeChar_lt (h c (by simp)) x hx
    · exact utf8Encode_lt s (fun y hy => h y (by simp [hy])) x hx

/-- UTF-8 decoding after encoding is the identity on code-point sequences. -/
theorem utf8_roundtrip : ∀ s : List Nat, (∀ c ∈ s, c < 1114112) →
    utf8Decode (utf8Encode s) = some s
  | [], _ => by simp only [utf8Encode, utf8Decode]
  | c :: s, h => by
    have hc : c < 1114112 := h c (by simp)
    have ih := utf8_roundtrip s (fun x hx => h x (by simp [hx]))
    by_cases h1 : c < 128
    · have g1 : utf8EncodeChar c = [c] := by unfold utf8EncodeChar; rw [if_pos h1]
      simp only [utf8Encode, g1, List.cons_append, List.nil_append]
      simp only [utf8Decode, if_pos h1, ih, Option.map_some']
    · by_cases h2 : c < 2048
      · have g1 : utf8EncodeChar c = [192 + c / 64, 128 + c % 64] := by
          unfold utf8EncodeChar
          rw [if_neg h1, if_pos h2]
        have c1 : ¬(192 + c / 64 < 128) := by omega
        have c2 : ¬(192 + c / 64 < 192) := by omega
        have c3 : 192 + c / 64 < 224 := by omega
        have c4 : 128 ≤ 128 + c % 64 ∧ 128 + c % 64 < 192 := ⟨by omega, by omega⟩
        simp only [utf8Encode, g1, List.cons_append, List.nil_append]
        simp only [utf8Decode, if_neg c1, if_neg c2, if_pos c3]
        simp only [utf8Decode2, if_pos c4, ih, Option.map_some', Option.some.injEq,
          List.cons.injEq]
        exact ⟨by omega, trivial⟩
      · by_cases h3 : c < 65536
        · have g1 : utf8EncodeChar c = [224 + c / 4096, 128 + c / 64 % 64, 128 + c % 64] := by
            unfold utf8EncodeChar
            rw [if_neg h1, if_neg h2, if_pos h3]
          have c1 : ¬(224 + c / 4096 < 128) := by omega
          have c2 : ¬(224 + c / 4096 < 192) := by omega
          have c3 : ¬(224 + c / 4096 < 224) := by omega
          have c4 : 224 + c / 4096 < 240 := by omega
          have c5 : (128 ≤ 128 + c / 64 % 64 ∧ 128 + c / 64 % 64 < 192) ∧
              128 ≤ 128 + c % 64 ∧ 128 + c % 64 < 192 := ⟨⟨by omega, by omega⟩, by omega, by omega⟩
          simp only [utf8Encode, g1, List.cons_append, List.nil_append]
          simp only [utf8Decode, if_neg c1, if_neg c2, if_neg c3, if_pos c4]
          simp only [utf8Decode3, if_pos c5, ih, Option.map_some', Option.some.injEq,
            List.cons.injEq]
          exact ⟨by omega, trivial⟩
        · have g1 : utf8EncodeChar c =
              [240 + c / 262144, 128 + c / 4096 % 64, 128 + c / 64 % 64, 128 + c % 64] := by
            unfold utf8EncodeChar
            rw [if_neg h1, if_neg h2, if_neg h3]
          have c1 : ¬(240 + c / 262144 < 128) := by omega
          have c2 : ¬(240 + c / 262144 < 192) := by omega
          have c3 : ¬(240 + c / 262144 < 224) := by omega
          have c4 : ¬(240 + c / 262144 < 240) := by omega
          have c5 : (128 ≤ 128 + c / 4096 % 64 ∧ 128 + c / 4096 % 64 < 192) ∧
              (128 ≤ 128 + c / 64 % 64 ∧ 128 + c / 64 % 64 < 192) ∧
              128 ≤ 128 + c % 64 ∧ 128 + c % 64 < 192 :=
            ⟨⟨by omega, by omega⟩, ⟨by omega, by omega⟩, by omega, by omega⟩
          simp only [utf8Encode, g1, List.cons_append, List.nil_append]
          simp only [utf8Decode, if_neg c1, if_neg c2, if_neg c3, if_neg c4]
          simp only [utf8Decode4, if_pos c5, ih, Option.map_some', Option.some.injEq,
            List.cons.injEq]
          exact ⟨by omega, trivial⟩

/-! ## `encode_base64` / `decode_base64` (utils.py lines 45-57) -/

/-- Model of `utils.encode_base64`:
`base64.b64encode(s.encode()).decode()`. -/
def encode_base64 (s : List Char) : List Char :=
  b64EncodeBytes (utf8Encode (s.map Char.toNat))

/-- Model of `utils.decode_base64`:
`base64.b64decode(s.encode()).decode()`, with the `except` handler of the
Python source mapping a failed decode to the empty string. -/
def decode_base64 (s : List Char) : List Char :=
  match utf8Decode (b64DecodeBytes s) with
  | some cps => cps.map Char.ofNat
  | none => []

theorem char_toNat_lt (c : Char) : c.toNat < 1114112 := by
  rcases c.valid with h | ⟨h1, h2⟩
  · have : c.val.toNat < 55296 := h
    simp only [Char.toNat]
    omega
  · have : c.val.toNat < 1114112 := h2
    simp only [Char.toNat]
    omega

/-- Decoding after encoding is the identity on arbitrary text. -/
theorem decode_encode_base64 (s : List Char) : decode_base64 (encode_base64 s) = s := by
  unfold encode_base64 decode_base64
  have hcps : ∀ c ∈ s.map Char.toNat, c < 1114112 := by
    intro c hc
    rcases List.mem_map.1 hc with ⟨x, _, rfl⟩
    exact char_toNat_lt x
  rw [b64_roundtrip _ (utf8Encode_lt _ hcps), utf8_roundtrip _ hcps]
  simp [List.map_map, Function.comp_def, Char.ofNat_toNat]

/-! ## Python string helpers -/

/-- Python's whitespace test used by `str.strip()` (ASCII whitespace). -/
def pyIsSpace (c : Char) : Bool :=
  c == ' ' || c == '\t' || c == '\n' || c == '\x0b' || c == '\x0c' || c == '\r'

/-- Python `str.strip()`: drop whitespace from both ends. -/
def pyStrip (s : List Char) : List Char :=
  ((s.dropWhile pyIsSpace).reverse.dropWhile pyIsSpace).reverse

/-- Python `str.lower()`, modelled per character. -/
def pyLower (s : List Char) : List Char := s.map Char.toLower

/-- Python slice `s[a:b]` for `0 ≤ a ≤ b`. -/
def pySlice (s : List Char) (a b : Nat) : List Char := (s.drop a).take (b - a)

/-- Holds when `needle` occurs in `hay` at index `i`. -/
def occursAt (hay needle : List Char) (i : Nat) : Prop :=
  (hay.drop i).take needle.length = needle

instance (hay needle : List Char) (i : Nat) : Decidable (occursAt hay needle i) := by
  unfold occursAt
  exact inferInstance

/-- Helper for `findSubstr`, scanning from index `i`. -/
def findSubstrAux (needle : List Char) : List Char → Nat → Option Nat
  | [], i => if needle = [] then some i else none
  | a :: t, i =>
    if (a :: t).take needle.length = needle then some i else findSubstrAux needle t (i + 1)

/-- Python `str.find`: index of the first occurrence; `none` models `-1`. -/
def findSubstr (hay needle : List Char) : Option Nat := findSubstrAux needle hay 0

theorem occursAt_nil {needle : List Char} {j : Nat} (h : occursAt [] needle j) : needle = [] := by
  unfold occursAt at h
  simpa using h.symm

theorem occursAt_cons_succ {a : Char} {t needle : List Char} {j : Nat} :
    occursAt (a :: t) needle (j + 1) ↔ occursAt t needle j := Iff.rfl

theorem occursAt_zero {hay needle : List Char} :
    occursAt hay needle 0 ↔ hay.take needle.length = needle := by
  unfold occursAt
  rw [List.drop_zero]

/-- The helper `findSubstrAux` finds the first occurrence (offset by the running index). -/
theorem findSubstrAux_first (needle : List Char) :
    ∀ (hay : List Char) (j i : Nat), occursAt hay needle j →
      (∀ k < j, ¬ occursAt hay needle k) →
      findSubstrAux needle hay i = some (i + j)
  | [], j, i, h1, h2 => by
    have hn : needle = [] := occursAt_nil h1
    have hj : j = 0 := by
      by_contra hne
      exact h2 0 (by omega) (by unfold occursAt; simp [hn])
    subst hj
    simp [findSubstrAux, hn]
  | a :: t, 0, i, h1, _ => by
    rw [occursAt_zero] at h1
    simp [findSubstrAux, h1]
  | a :: t, j + 1, i, h1, h2 => by
    have h0 : ¬ (a :: t).take needle.length = needle := by
      rw [← occursAt_zero]
      exact h2 0 (by omega)
    rw [findSubstrAux, if_neg h0]
    have ih := findSubstrAux_first needle t j (i + 1) (occursAt_cons_succ.mp h1)
      (fun k hk => fun hc => h2 (k + 1) (by omega) (occursAt_cons_succ.mpr hc))
    rw [ih]
    congr 1
    omega

/-- The helper `findSubstrAux` returns `none` when there is no occurrence. -/
theorem findSubstrAux_none (needle : List Char) :
    ∀ (hay : List Char) (i : Nat), (∀ k, ¬ occursAt hay needle k) →
      findSubstrAux needle hay i = none
  | [], i, h => by
    have hn : ¬ needle = [] := by
      intro hc
      exact h 0 (by unfold occursAt; simp [hc])
    simp [findSubstrAux, hn]
  | a :: t, i, h => by
    have h0 : ¬ (a :: t).take needle.length = needle := by
      rw [← occursAt_zero]
      exact h 0
    rw [findSubstrAux, if_neg h0]
    exact findSubstrAux_none needle t (i + 1) (fun k hc => h (k + 1) (occursAt_cons_succ.mpr hc))

theorem findSubstr_first {hay needle : List Char} {j : Nat} (h1 : occursAt hay needle j)
    (h2 : ∀ k < j, ¬ occursAt hay needle k) : findSubstr hay needle = some j := by
  unfold findSubstr
  rw [findSubstrAux_first needle hay j 0 h1 h2]
  rw [Nat.zero_add]

theorem findSubstr_none {hay needle : List Char} (h : ∀ k, ¬ occursAt hay needle k) :
    findSubstr hay needle = none := findSubstrAux_none needle hay 0 h

/-! ## `get_centered_excerpt` (utils.py lines 264-280) -/

/-- The literal `"..."`. -/
def dots : List Char := "...".data

/-- Model of `utils.get_centered_excerpt`.  The `try` body never raises on
this total model, so the Python `except` fallback is dead code here.
`str.find` returning `-1` is modelled by `findSubstr` returning `none`;
`max(idx - length // 2, 0)` is truncated natural subtraction. -/
def get_centered_excerpt (text answer : List Char) (len : Nat) : List Char :=
  match findSubstr (pyLower text) (pyLower answer) with
  | some idx =>
    let start := idx - len / 2
    let stop := start + len
    let excerpt := pyStrip ((text.drop start).take len)
    let excerpt2 := if 0 < start then dots ++ excerpt else excerpt
    if stop < text.length then excerpt2 ++ dots else excerpt2
  | none => pyStrip (text.take len) ++ (if len < text.length then dots else [])

/-- The spec's excerpt window start, `max(idx - length/2, 0)` over the
integers. -/
def specExcerptStart (idx len : Nat) : Nat :=
  (max ((idx : Int) - ((len / 2 : Nat) : Int)) 0).toNat

/-- C6: the excerpt function is deterministic; when the lowercased answer
first occurs in the lowercased text at `idx`, the result is the trimmed
window of `len` characters around `idx` with `"..."` markers exactly when
the window is cut on that side; when it does not occur, the trimmed first
`len` characters with a trailing `"..."` exactly when the text is longer. -/
theorem c6_centered_excerpt (text answer : List Char) (len : Nat) (hlen : 0 < len) :
    (∀ idx : Nat, occursAt (pyLower text) (pyLower answer) idx →
      (∀ j < idx, ¬ occursAt (pyLower text) (pyLower answer) j) →
      get_centered_excerpt text answer len =
        (if 0 < specExcerptStart idx len then dots else []) ++
          pyStrip (pySlice text (specExcerptStart idx len) (specExcerptStart idx len + len)) ++
          (if specExcerptStart idx len + len < text.length then dots else [])) ∧
    ((∀ j, ¬ occursAt (pyLower text) (pyLower answer) j) →
      get_centered_excerpt text answer len =
        pyStrip (pySlice text 0 len) ++ (if len < text.length then dots else [])) := by
  constructor
  · intro idx h1 h2
    have hf : findSubstr (pyLower text) (pyLower answer) = some idx := findSubstr_first h1 h2
    have hs : specExcerptStart idx len = idx - len / 2 := by
      unfold specExcerptStart
      omega
    simp only [get_centered_excerpt, hf, hs]
    have hslice : pySlice text (idx - len / 2) (idx - len / 2 + len) =
        (text.drop (idx - len / 2)).take len := by
      unfold pySlice
      congr 1
      omega
    rw [hslice]
    by_cases hp : 0 < idx - len / 2 <;> by_cases hq : idx - len / 2 + len < text.length <;>
      simp [hp, hq, List.append_assoc]
  · intro h
    have hf : findSubstr (pyLower text) (pyLower answer) = none := findSubstr_none h
    simp only [get_centered_excerpt, hf]
    unfold pySlice
    simp

/-- Concrete text for the C6 witness. -/
def helloText : List Char := "Hello World and more!".data

/-- Concrete answer for the C6 witness. -/
def worldAnswer : List Char := "world".data

/-- Expected excerpt for the C6 witness. -/
def helloExcerpt : List Char := "...ello World...".data

/-- Witness for C6 at concrete inputs: text `"Hello World and more!"`,
answer `"world"`, length 10. -/
theorem c6_centered_excerpt_witness :
    get_centered_excerpt helloText worldAnswer 10 = helloExcerpt := by
  have h := (c6_centered_excerpt helloText worldAnswer 10 (by decide)).1 6
    (by decide) (by decide)
  exact h.trans (by decide)

/-! ## `format_source_link` (utils.py lines 282-292) -/

/-- Model of `os.path.basename`: the part of the path after the last `'/'`. -/
def basename (p : List Char) : List Char :=
  (p.reverse.takeWhile (fun c => c != '/')).reverse

/-- Root part of `os.path.splitext` on a bare filename: cut at the last dot
unless every character before it is a dot (CPython `genericpath._splitext`). -/
def splitextRoot (b : List Char) : List Char :=
  let tailLen := (b.reverse.takeWhile (fun c => c != '.')).length
  if tailLen = b.length then b
  else
    let sepIndex := b.length - 1 - tailLen
    if (b.takeWhile (fun c => c == '.')).length < sepIndex then b.take sepIndex else b

/-- Model of `str.rstrip('/')`: drop trailing slashes. -/
def rstripSlash (s : List Char) : List Char :=
  (s.reverse.dropWhile (fun c => c == '/')).reverse

/-- The literal `"wikilinks"`. -/
def wikilinksStr : List Char := "wikilinks".data

/-- The literal `"markdown"`. -/
def markdownStr : List Char := "markdown".data

/-- The literal `"[["`. -/
def wlOpen : List Char := "[[".data

/-- The literal `"]]"`. -/
def wlClose : List Char := "]]".data

/-- The literal `"["`. -/
def mdOpen : List Char := "[".data

/-- The literal `"]("`. -/
def mdMid : List Char := "](".data

/-- The literal `")"`. -/
def mdClose : List Char := ")".data

/-- The literal `"/"`. -/
def slashStr : List Char := "/".data

/-- Model of `utils.format_source_link`.  The `try` body is total here, so
the Python `except` fallback is dead code in the model. -/
def format_source_link (path style ragDocDir : List Char) : List Char :=
  let filename := splitextRoot (basename path)
  if style = wikilinksStr then wlOpen ++ filename ++ wlClose
  else mdOpen ++ filename ++ mdMid ++ rstripSlash ragDocDir ++ slashStr ++ path ++ mdClose

/-- The path `"notes/a.md"` from the claim's example. -/
def notesAMd : List Char := "notes/a.md".data

/-- The doc dir `"/docs"` from the claim's example. -/
def docsDir : List Char := "/docs".data

/-- A doc dir with a trailing slash, `"/docs/"`. -/
def docsDirSlash : List Char := "/docs/".data

/-- Expected wikilink for the example. -/
def wikiAExample : List Char := "[[a]]".data

/-- Expected markdown link for the example. -/
def mdAExample : List Char := "[a](/docs/notes/a.md)".data

/-- C8 counterexample: with doc-directory `"/docs/"` (trailing slash) the
code strips the slash, so the output is not `docDir ++ "/" ++ path` as the
claim states for every doc-directory. -/
theorem c8_counterexample :
    format_source_link notesAMd markdownStr docsDirSlash ≠
      mdOpen ++ splitextRoot (basename notesAMd) ++ mdMid ++ docsDirSlash ++ slashStr ++
        notesAMd ++ mdClose := by decide

/-- C8 amended: wikilinks style gives `[[name]]`; markdown style gives
`[name](docDir-without-trailing-slashes ++ "/" ++ path)`, where `name` is the
base filename without extension; the claim's two examples hold. -/
theorem c8_format_source_link (path ragDocDir : List Char) :
    format_source_link path wikilinksStr ragDocDir =
        wlOpen ++ splitextRoot (basename path) ++ wlClose ∧
    format_source_link path markdownStr ragDocDir =
        mdOpen ++ splitextRoot (basename path) ++ mdMid ++ rstripSlash ragDocDir ++
          slashStr ++ path ++ mdClose ∧
    format_source_link notesAMd wikilinksStr ragDocDir = wikiAExample ∧
    format_source_link notesAMd markdownStr docsDir = mdAExample := by
  have hne : markdownStr ≠ wikilinksStr := by decide
  refine ⟨?_, ?_, ?_, ?_⟩
  · simp [format_source_link]
  · simp [format_source_link, hne]
  · have h : format_source_link notesAMd wikilinksStr ragDocDir =
        wlOpen ++ splitextRoot (basename notesAMd) ++ wlClose := by
      simp [format_source_link]
    rw [h]
    decide
  · decide

/-! ## Conversation store (utils.py lines 66-106)

`setup_database` creates the append-only `conversations` table
`(id INTEGER PRIMARY KEY, timestamp, role, content)`.  We model its state as
a `List Turn` in rowid (insertion) order; a `SELECT` without `ORDER BY`
returns rows in that order. -/

/-- One row of the `conversations` table; the list position is the rowid.
`role` and `content` hold the stored (base64-encoded) text. -/
structure Turn where
  timestamp : Int
  role : List Char
  content : List Char
deriving DecidableEq

/-- Model of `utils.insert_conversation`: append one row, with
`int(time.time())` as timestamp and base64-encoded texts. -/
def insert_conversation (role content : List Char) (now : Int) (store : List Turn) :
    List Turn :=
  store ++ [⟨now, encode_base64 role, encode_base64 content⟩]

/-- Rows matched by `SELECT ... WHERE timestamp >= ?`, in rowid order. -/
def conversationRowsAfter (cutoff : Int) (store : List Turn) : List Turn :=
  store.filter (fun t => cutoff ≤ t.timestamp)

/-- Model of `utils.get_conversations_after_timestamp`: the decoded roles
and contents of the qualifying rows. -/
def get_conversations_after_timestamp (cutoff : Int) (store : List Turn) :
    List (List Char) × List (List Char) :=
  ((conversationRowsAfter cutoff store).map (fun r => decode_base64 r.role),
   (conversationRowsAfter cutoff store).map (fun r => decode_base64 r.content))

/-- Non-decreasing timestamps, pairwise along the store. -/
def TimestampsSorted (l : List Turn) : Prop :=
  List.Pairwise (fun a b => a.timestamp ≤ b.timestamp) l

/-- The literal `"user"`. -/
def userStr : List Char := "user".data

/-- Content `"five"` for the C4 counterexample. -/
def contentFive : List Char := "five".data

/-- Content `"three"` for the C4 counterexample. -/
def contentThree : List Char := "three".data

/-- C4 counterexample store: a row with timestamp 5 inserted before a row
with timestamp 3. -/
def c4Store : List Turn :=
  [⟨5, encode_base64 userStr, encode_base64 contentFive⟩,
   ⟨3, encode_base64 userStr, encode_base64 contentThree⟩]

/-- C4 counterexample: the `SELECT` has no `ORDER BY`, so on a store whose
timestamps decrease the query returns rowid order (`"five"` then
`"three"`), not ascending timestamp order as the claim states for every
store state. -/
theorem c4_counterexample :
    (get_conversations_after_timestamp 0 c4Store).2 = [contentFive, contentThree] ∧
    ¬ TimestampsSorted (conversationRowsAfter 0 c4Store) := by
  constructor
  · have h5 : decode_base64 (encode_base64 contentFive) = contentFive :=
      decode_encode_base64 contentFive
    have h3 : decode_base64 (encode_base64 contentThree) = contentThree :=
      decode_encode_base64 contentThree
    simp [get_conversations_after_timestamp, conversationRowsAfter, c4Store, h5, h3]
  · intro h
    unfold TimestampsSorted conversationRowsAfter c4Store at h
    simp at h

/-- C4 amended: the windowed query returns exactly the rows with
timestamp ≥ cutoff — never one below, always one at or above — in rowid
(insertion) order, a sublist of the store, which is ascending timestamp
order whenever the store's timestamps are non-decreasing (as produced by
this program's appends); an empty result, not an error, when nothing
qualifies; and an appended turn is included exactly when the cutoff is at
or below its timestamp. -/
theorem c4_query_window (cutoff : Int) (store : List Turn) :
    (∀ t ∈ store, cutoff ≤ t.timestamp → t ∈ conversationRowsAfter cutoff store) ∧
    (∀ t ∈ conversationRowsAfter cutoff store, t ∈ store ∧ cutoff ≤ t.timestamp) ∧
    List.Sublist (conversationRowsAfter cutoff store) store ∧
    (TimestampsSorted store → TimestampsSorted (conversationRowsAfter cutoff store)) ∧
    ((∀ t ∈ store, ¬ cutoff ≤ t.timestamp) →
      get_conversations_after_timestamp cutoff store = ([], [])) ∧
    (get_conversations_after_timestamp cutoff store =
      ((conversationRowsAfter cutoff store).map (fun r => decode_base64 r.role),
       (conversationRowsAfter cutoff store).map (fun r => decode_base64 r.content))) ∧
    (∀ role content now, cutoff ≤ now →
      conversationRowsAfter cutoff (insert_conversation role content now store) =
        conversationRowsAfter cutoff store ++
          [⟨now, encode_base64 role, encode_base64 content⟩]) ∧
    (∀ role content now, ¬ cutoff ≤ now →
      conversationRowsAfter cutoff (insert_conversation role content now store) =
        conversationRowsAfter cutoff store) := by
  refine ⟨?_, ?_, ?_, ?_, ?_, rfl, ?_, ?_⟩
  · intro t ht hc
    unfold conversationRowsAfter
    simp [List.mem_filter, ht, hc]
  · intro t ht
    unfold conversationRowsAfter at ht
    simp [List.mem_filter] at ht
    exact ht
  · exact List.filter_sublist store
  · intro h
    exact List.Pairwise.filter _ h
  · intro h
    unfold get_conversations_after_timestamp conversationRowsAfter
    rw [List.filter_eq_nil_iff.mpr (by simpa using h)]
    simp
  · intro role content now h
    unfold conversationRowsAfter insert_conversation
    simp [List.filter_append, h]
  · intro role content now h
    unfold conversationRowsAfter insert_conversation
    simp [List.filter_append, h]

/-- Witness for C4 at a concrete store and cutoff. -/
theorem c4_query_window_witness :
    conversationRowsAfter 4 c4Store = [⟨5, encode_base64 userStr, encode_base64 contentFive⟩] ∧
    TimestampsSorted (conversationRowsAfter 4 []) ∧
    get_conversations_after_timestamp 9 c4Store = ([], []) := by
  refine ⟨?_, ?_, ?_⟩
  · unfold c4Store conversationRowsAfter
    simp
  · exact (c4_query_window 4 []).2.2.2.1 (by simp [TimestampsSorted])
  · exact (c4_query_window 9 c4Store).2.2.2.2.1 (by decide)

/-- C5: appending a turn and reading it back through the windowed query
yields the original role and content text unchanged (base64 storage
round-trips arbitrary text, including newlines, quotes and non-ASCII). -/
theorem c5_store_roundtrip (role content : List Char) (now cutoff : Int)
    (store : List Turn) (h : cutoff ≤ now) :
    get_conversations_after_timestamp cutoff (insert_conversation role content now store) =
      ((get_conversations_after_timestamp cutoff store).1 ++ [role],
       (get_conversations_after_timestamp cutoff store).2 ++ [content]) := by
  unfold get_conversations_after_timestamp conversationRowsAfter insert_conversation
  simp [List.filter_append, h, decode_encode_base64]

/-- Content with newline, quotes and non-ASCII characters for the C5
witness. -/
def c5Content : List Char := "héllo ✓ \"quote\"\nπ 😀".data

/-- Witness for C5 at a concrete store: the appended turn reads back
verbatim. -/
theorem c5_store_roundtrip_witness :
    get_conversations_after_timestamp 0 (insert_conversation userStr c5Content 7 []) =
      ([userStr], [c5Content]) := by
  have h := c5_store_roundtrip userStr c5Content 7 0 [] (by decide)
  exact h.trans (by decide)

/-! ## URL extraction (utils.py lines 180-189)

`get_urls` runs `re.findall` with the pattern
`http[s]?://(?:[a-zA-Z]|[0-9]|[$-_@.&+]|[!*\\(\\),]|(?:%[0-9a-fA-F][0-9a-fA-F]))+`.
The single-character alternatives are ASCII letters, digits, the byte range
`'$'..'_'` (which contains `@ . & +` and also `%`, so the `%hh` alternative
is subsumed), and `! * \ ( ) ,`.  A match is the literal scheme followed by
a non-empty maximal run of those characters. -/

/-- One character of the URL body character class. -/
def urlChar (c : Char) : Bool :=
  (97 ≤ c.toNat && c.toNat ≤ 122) || (65 ≤ c.toNat && c.toNat ≤ 90) ||
    (48 ≤ c.toNat && c.toNat ≤ 57) || (36 ≤ c.toNat && c.toNat ≤ 95) ||
    c.toNat == 33 || c.toNat == 42 || c.toNat == 92 || c.toNat == 40 || c.toNat == 41 ||
    c.toNat == 44

/-- The literal `"http"`. -/
def httpStr : List Char := "http".data

/-- The literal `"https"`. -/
def httpsStr : List Char := "https".data

/-- After the scheme: match `://` then a non-empty greedy run of `urlChar`s;
returns the whole match and the remaining input. -/
def matchUrlCore (scheme rest : List Char) : Option (List Char × List Char) :=
  match rest with
  | ':' :: '/' :: '/' :: r2 =>
    if (r2.takeWhile urlChar).isEmpty then none
    else some (scheme ++ ':' :: '/' :: '/' :: r2.takeWhile urlChar,
      r2.drop (r2.takeWhile urlChar).length)
  | _ => none

/-- Try the URL pattern at the start of the input: literal `http`, optional
`s` (greedy, with backtracking), then `matchUrlCore`. -/
def matchUrlAt (s : List Char) : Option (List Char × List Char) :=
  match s with
  | 'h' :: 't' :: 't' :: 'p' :: rest =>
    match rest with
    | 's' :: rest2 =>
      match matchUrlCore httpsStr rest2 with
      | some x => some x
      | none => matchUrlCore httpStr rest
    | _ => matchUrlCore httpStr rest
  | _ => none

/-- Scan for matches, with fuel bounding the number of scan steps; a
successful match consumes at least its own length, so `s.length` fuel
always suffices. -/
def getUrlsAux : Nat → List Char → List (List Char)
  | 0, _ => []
  | _ + 1, [] => []
  | fuel + 1, c :: rest =>
    match matchUrlAt (c :: rest) with
    | some p => p.1 :: getUrlsAux fuel p.2
    | none => getUrlsAux fuel rest

/-- Model of `utils.get_urls`: leftmost non-overlapping matches
(`re.findall`). -/
def get_urls (s : List Char) : List (List Char) := getUrlsAux s.length s

/-! ## run_model (core.py lines 53-195) -/

/-- One `{role, content}` chat message. -/
structure Msg where
  role : List Char
  content : List Char
deriving DecidableEq

/-- A source document as returned by the retrieval chain. -/
structure RagDoc where
  pageContent : List Char
  source : List Char
deriving DecidableEq

/-- The retrieval chain's response (`result` and `source_documents`). -/
structure RagResponse where
  result : List Char
  sourceDocuments : List RagDoc
deriving DecidableEq

/-- The configuration dict handed to `run_model`.  `temperature` is a float
and only rides along in the request payload, so it is not modelled. -/
structure Config where
  allowClipboard : Bool
  prompt : List Char
  rag : Bool
  webSearch : Bool
  followLinks : Bool
  systemRole : List Char
  timeoutMinutes : Nat
  model : List Char
  ragExcerptLength : Nat
  ragSourceLinkformat : List Char
  ragDocDir : List Char

/-- Outcomes of the external collaborators during one invocation: clipboard,
clocks, the search-phrase model call, the web-search payload (as rendered
into the f-string), per-URL reachability probes, the page-reader payload (as
rendered by `get_url_contents`), the mandatory chat-completion call, and the
retrieval chain. -/
structure World where
  clipboard : List Char
  utcNow : Int
  todayStr : List Char
  tInsertUser : Int
  tInsertAssistant : Int
  auxReply : Except (List Char) (List Char)
  searchResultsText : List Char
  reachable : List Char → Bool
  urlContentsJson : List (List Char) → List Char
  providerReply : Except (List Char) (List Char)
  ragResponse : RagResponse

/-- Observable effects of one invocation, in order. -/
inductive Event
  | ragQuery (query : List Char)
  | providerRequest (model : List Char) (messages : List Msg)
  | auxProviderRequest (messages : List Msg)
  | webSearchRequest (phrase : List Char)
  | urlProbe (url : List Char) (ok : Bool)
  | pageFetch (url : List Char)
  | webRewrite
  | linkRewrite
  | printed (text : List Char)
  | dbInsert (role content : List Char)
deriving DecidableEq

/-- Terminal failures of one invocation: the empty-prompt `ValueError`, the
link-follow abort (`sys.exit(0)` — in fact a `NameError`, since `core.py`
never imports `sys`; either way the invocation stops there), and an
exception propagating out of `send_request`. -/
inductive RunErr
  | emptyPrompt
  | linkUnreachable (urls : List (List Char))
  | provider (msg : List Char)
deriving DecidableEq

/-- Result of one `run_model` invocation. -/
structure RunResult where
  outcome : Except RunErr Unit
  store : List Turn
  events : List Event

/-- The literal `": "`. -/
def colonSpace : List Char := ": ".data

/-- The literal `"assistant"`. -/
def assistantStr : List Char := "assistant".data

/-- The literal `"system"`. -/
def systemStr : List Char := "system".data

/-- The clipboard text `run_model` sees (core.py lines 55-57): cleared first
when the clipboard is disallowed. -/
def clipboardContent (cfg : Config) (w : World) : List Char :=
  if cfg.allowClipboard then w.clipboard else []

/-- Prompt composition (core.py lines 59-66); `none` models the
`ValueError("The new prompt is empty")`. -/
def composePrompt (prompt clip : List Char) : Option (List Char) :=
  if clip = [] ∧ prompt = [] then none
  else if clip = [] then some prompt
  else if prompt = [] then some clip
  else some (prompt ++ colonSpace ++ clip)

/-- Deduplication with a `seen` set, keeping first occurrences
(core.py lines 109-118). -/
def dedupFirsts {α : Type} [DecidableEq α] : List α → List α → List α
  | [], _ => []
  | p :: rest, seen =>
    if p ∈ seen then dedupFirsts rest seen else p :: dedupFirsts rest (p :: seen)

/-- Model of `str.replace('\n', ' ')`. -/
def replaceNlSpace (s : List Char) : List Char :=
  s.map (fun c => if c = '\n' then ' ' else c)

/-- The `(excerpt, link)` pairs of the RAG sources in document order
(core.py lines 110-114). -/
def ragSourcePairs (resp : RagResponse) (excerptLen : Nat) (fmt dir : List Char) :
    List (List Char × List Char) :=
  resp.sourceDocuments.map (fun doc =>
    (get_centered_excerpt (pyStrip (replaceNlSpace doc.pageContent)) resp.result excerptLen,
     format_source_link doc.source fmt dir))

/-- The literal `"\nAnswer: "` — note the leading newline in
`core.py` line 120. -/
def nlAnswerPrefixStr : List Char := "\nAnswer: ".data

/-- The literal `"\n\nSources:\n"`. -/
def sourcesHeaderStr : List Char := "\n\nSources:\n".data

/-- The literal `"- \""` opening a bullet line. -/
def bulletOpenStr : List Char := "- \"".data

/-- The literal `"\" "` between excerpt and link. -/
def bulletMidStr : List Char := "\" ".data

/-- The literal `"\n"`. -/
def nlStr : List Char := "\n".data

/-- The RAG reply text (core.py lines 120-122). -/
def ragReplyText (resp : RagResponse) (excerptLen : Nat) (fmt dir : List Char) : List Char :=
  let uniq := dedupFirsts (ragSourcePairs resp excerptLen fmt dir) []
  nlAnswerPrefixStr ++ resp.result ++ sourcesHeaderStr ++
    (uniq.map (fun p => bulletOpenStr ++ p.1 ++ bulletMidStr ++ p.2 ++ nlStr)).flatten

/-- Model of `utils.timestamp_n_minutes_ago`: POSIX seconds, `n` minutes
back from now. -/
def timestamp_n_minutes_ago (now : Int) (n : Nat) : Int := now - 60 * n

/-- The outgoing message list (core.py lines 172-182): system role, the
windowed history in stored order, then the new user turn. -/
def buildMessages (systemRole : List Char) (cutoff : Int) (store : List Turn)
    (newPrompt : List Char) : List Msg :=
  let rc := get_conversations_after_timestamp cutoff store
  Msg.mk systemStr systemRole ::
    ((rc.1.zip rc.2).map (fun p => Msg.mk p.1 p.2) ++ [Msg.mk userStr newPrompt])

/-- Shared tail of both branches (core.py lines 194-195): persist the user
and the assistant turn, in that order. -/
def persistTurns (newPrompt reply : List Char) (w : World) (store : List Turn)
    (evs : List Event) : RunResult :=
  { outcome := Except.ok ()
    store := insert_conversation assistantStr reply w.tInsertAssistant
      (insert_conversation userStr newPrompt w.tInsertUser store)
    events := evs ++ [Event.dbInsert userStr newPrompt, Event.dbInsert assistantStr reply] }

/-- Template piece before the question in `make_searchphrase`. -/
def spTemplateA : List Char := "\n    You are an intelligent and resourceful assistant for web searching. Your goal is to help users generate good search queries based on their questions. Respond only with the exact text for optimal web searching.\n\n    Examples:\n    Q: What is the capital of France?\n    A: Capital of France\n\n    Q: How do I use the SearxNG API?\n    A: SearxNG API documentation\n\n    Q: Who won the Nobel Peace Prize in 2024?\n    A: Nobel Peace Prize laureate 2024\n\n    Here is the user's input:\n\n    ".data

/-- Template piece after the question in `make_searchphrase`. -/
def spTemplateB : List Char := "\n    ".data

/-- The auxiliary messages built inside `make_searchphrase`
(utils.py lines 125-148). -/
def searchPhraseMessages (cfg : Config) (prompt : List Char) : List Msg :=
  [Msg.mk systemStr cfg.systemRole, Msg.mk userStr (spTemplateA ++ prompt ++ spTemplateB)]

/-- Web template piece before the original question. -/
def webWrapA : List Char := "\n                You are an intelligent and resourceful assistant. Your goal is to answer the user's question using the results from a web search.\n                Here is the user's original question: ".data

/-- Web template piece between question and date. -/
def webWrapB : List Char := "\n                Today's date is ".data

/-- Web template piece between date and search results. -/
def webWrapC : List Char := ".\n                Here is the information retrieved from the web search, in json format. The text of the page is in the \"description\" or \"content\" field.\n                ------------\n                ".data

/-- Web template piece after the search results. -/
def webWrapD : List Char := "\n                ------------\n                Now use this context to answer the user's original question in a clear manner. Be very concise. At the end, list the titles, urls, and publication dates of the three main sources you relied on to answer the question. Use markdown format like so: * [title](url) (dd mmm YYYY).\n                ".data

/-- Link template piece before the original question. -/
def linkWrapA : List Char := "\n                    You are an intelligent and resourceful assistant. Your goal is to answer the user's question using the contents of the webpages mentioned in his question.\n                    Here is the user's original question:\n                    ----\n                    ".data

/-- Link template piece between question and page contents. -/
def linkWrapB : List Char := "\n                    ----\n                    Here is the content of the webpages mentioned in the question, in json format:\n                    ------------\n                    ".data

/-- Link template piece after the page contents. -/
def linkWrapC : List Char := "\n                    ------------\n                    Now use this context to answer the user's original question in a clear manner. Be very concise.\n                    ".data

/-- The web-search stage (core.py lines 127-146): a search phrase is asked
from the provider (degrading to `""` on failure inside
`make_searchphrase`), the web search runs, and the prompt is rewritten
around the rendered payload. -/
def webStage (cfg : Config) (w : World) (p : List Char) : List Char × List Event :=
  let phrase := match w.auxReply with
    | Except.ok s => s
    | Except.error _ => []
  (webWrapA ++ p ++ webWrapB ++ w.todayStr ++ webWrapC ++ w.searchResultsText ++ webWrapD,
   [Event.auxProviderRequest (searchPhraseMessages cfg p), Event.webSearchRequest phrase,
    Event.webRewrite])

/-- The prompt after the optional web-search rewrite. -/
def stagedPrompt1 (cfg : Config) (w : World) (p : List Char) : List Char :=
  if cfg.webSearch then (webStage cfg w p).1 else p

/-- The prompt after the optional link-follow rewrite (reachable case). -/
def stagedPrompt2 (cfg : Config) (w : World) (p1 : List Char) : List Char :=
  if cfg.followLinks then
    linkWrapA ++ p1 ++ linkWrapB ++ w.urlContentsJson (get_urls p1) ++ linkWrapC
  else p1

/-- Final phase of the non-RAG path (core.py lines 172-195): build the
message list, issue the one chat-completion request, and on success print
and persist. -/
def chatPhase (cfg : Config) (w : World) (store : List Turn) (p2 : List Char)
    (evs : List Event) : RunResult :=
  match w.providerReply with
  | Except.error e =>
    { outcome := Except.error (RunErr.provider e), store := store,
      events := evs ++ [Event.providerRequest cfg.model (buildMessages cfg.systemRole
        (timestamp_n_minutes_ago w.utcNow cfg.timeoutMinutes) store p2)] }
  | Except.ok reply =>
    persistTurns p2 reply w store
      (evs ++ [Event.providerRequest cfg.model (buildMessages cfg.systemRole
        (timestamp_n_minutes_ago w.utcNow cfg.timeoutMinutes) store p2)] ++
        [Event.printed reply])

/-- The link-follow stage (core.py lines 148-170): probe every extracted
URL; abort listing the unreachable ones, or fetch all pages and rewrite the
prompt, then continue to the chat phase. -/
def linkPhase (cfg : Config) (w : World) (store : List Turn) (p1 : List Char)
    (evs1 : List Event) : RunResult :=
  if cfg.followLinks then
    if ((get_urls p1).filter (fun u => !(w.reachable u))).isEmpty then
      chatPhase cfg w store
        (linkWrapA ++ p1 ++ linkWrapB ++ w.urlContentsJson (get_urls p1) ++ linkWrapC)
        (evs1 ++ (get_urls p1).map (fun u => Event.urlProbe u (w.reachable u)) ++
          (get_urls p1).map Event.pageFetch ++ [Event.linkRewrite])
    else
      { outcome := Except.error (RunErr.linkUnreachable
          ((get_urls p1).filter (fun u => !(w.reachable u)))), store := store,
        events := evs1 ++ (get_urls p1).map (fun u => Event.urlProbe u (w.reachable u)) }
  else chatPhase cfg w store p1 evs1

/-- Model of `core.run_model` (core.py lines 53-195).  `setup_database` is
the idempotent table creation and has no observable effect on the model
state; collaborator outcomes are read from `w`; `store` is the database
state.  The returned events record the observable effects in order. -/
def run_model (cfg : Config) (w : World) (store : List Turn) : RunResult :=
  let clip := clipboardContent cfg w
  match composePrompt cfg.prompt clip with
  | none => { outcome := Except.error RunErr.emptyPrompt, store := store, events := [] }
  | some newPrompt =>
    if cfg.rag then
      let reply := ragReplyText w.ragResponse cfg.ragExcerptLength cfg.ragSourceLinkformat
        cfg.ragDocDir
      persistTurns newPrompt reply w store [Event.ragQuery newPrompt, Event.printed reply]
    else if cfg.webSearch then
      linkPhase cfg w store (webStage cfg w newPrompt).1 (webStage cfg w newPrompt).2
    else
      linkPhase cfg w store newPrompt []

/-! ## Concrete invocations used by witnesses and counterexamples -/

/-- The literal `"Hello"`. -/
def helloStr : List Char := "Hello".data

/-- The literal `"Hi there"`. -/
def hiThereStr : List Char := "Hi there".data

/-- The literal `"A helpful assistant"` (the default system role). -/
def helpfulStr : List Char := "A helpful assistant".data

/-- The literal `"42"`. -/
def fortyTwoStr : List Char := "42".data

/-- The literal `"q"`. -/
def qStr : List Char := "q".data

/-- The literal `"boom"`. -/
def boomStr : List Char := "boom".data

/-- The literal `"clip"`. -/
def clipStr : List Char := "clip".data

/-- A plain-mode configuration with the spec's end-to-end scenario values. -/
def plainCfg : Config :=
  { allowClipboard := true
    prompt := "Hello".data
    rag := false
    webSearch := false
    followLinks := false
    systemRole := "A helpful assistant".data
    timeoutMinutes := 10
    model := "somemodel".data
    ragExcerptLength := 200
    ragSourceLinkformat := "markdown".data
    ragDocDir := "/docs".data }

/-- A collaborator world for the plain scenario: empty clipboard, provider
replies `"Hi there"`, every URL reachable. -/
def plainWorld : World :=
  { clipboard := []
    utcNow := 1000000
    todayStr := "12 October 2025".data
    tInsertUser := 1000001
    tInsertAssistant := 1000002
    auxReply := Except.ok qStr
    searchResultsText := "results".data
    reachable := fun _ => true
    urlContentsJson := fun _ => "[]".data
    providerReply := Except.ok hiThereStr
    ragResponse := ⟨fortyTwoStr, []⟩ }

/-- Configuration `plainCfg` with both the web-search and the follow-links flag set. -/
def bothCfg : Config := { plainCfg with webSearch := true, followLinks := true }

/-- Configuration `plainCfg` with the empty prompt. -/
def cfgEmptyPrompt : Config := { plainCfg with prompt := [] }

/-- Configuration `plainCfg` in RAG mode. -/
def ragCfg : Config := { plainCfg with rag := true }

/-- Configuration `plainCfg` in link-follow mode, with a URL in the prompt. -/
def linkCfg : Config :=
  { plainCfg with followLinks := true, prompt := "read http://x.example now".data }

/-- World `plainWorld` with a failing provider. -/
def failWorld : World := { plainWorld with providerReply := Except.error boomStr }

/-- World `plainWorld` with every URL unreachable. -/
def deadWorld : World := { plainWorld with reachable := fun _ => false }

/-! ## C1: mode dispatch -/

set_option maxRecDepth 20000 in
/-- C1 counterexample: `core.py` uses two independent `if`s, not `elif`, so
with both the web-search and the follow-links flag set both rewrites are
applied to the same invocation (the link rewrite on top of the
web-rewritten prompt), contradicting the claimed mutual exclusion. -/
theorem c1_counterexample :
    Event.webRewrite ∈ (run_model bothCfg plainWorld []).events ∧
    Event.linkRewrite ∈ (run_model bothCfg plainWorld []).events := by decide

/-- C1 amended: RAG short-circuits everything (no rewrite and no chat
request happens); otherwise the web rewrite is applied exactly when its
flag is set, and the link rewrite exactly when its flag is set and every
extracted URL is reachable — so with both flags set both rewrites apply,
web first. -/
theorem chatPhase_mem_webRewrite (cfg : Config) (w : World) (store : List Turn)
    (p2 : List Char) (evs : List Event) :
    (Event.webRewrite ∈ (chatPhase cfg w store p2 evs).events ↔ Event.webRewrite ∈ evs) := by
  unfold chatPhase persistTurns
  cases w.providerReply <;> simp

theorem chatPhase_mem_linkRewrite (cfg : Config) (w : World) (store : List Turn)
    (p2 : List Char) (evs : List Event) :
    (Event.linkRewrite ∈ (chatPhase cfg w store p2 evs).events ↔
      Event.linkRewrite ∈ evs) := by
  unfold chatPhase persistTurns
  cases w.providerReply <;> simp

theorem linkPhase_mem_webRewrite (cfg : Config) (w : World) (store : List Turn)
    (p1 : List Char) (evs1 : List Event) :
    (Event.webRewrite ∈ (linkPhase cfg w store p1 evs1).events ↔
      Event.webRewrite ∈ evs1) := by
  unfold linkPhase
  by_cases hl : cfg.followLinks
  · simp only [hl, if_true]
    by_cases hu : ((get_urls p1).filter (fun u => !(w.reachable u))).isEmpty
    · rw [if_pos hu, chatPhase_mem_webRewrite]
      simp
    · rw [if_neg hu]
      simp
  · simp only [hl, Bool.false_eq_true, if_false]
    rw [chatPhase_mem_webRewrite]

theorem linkPhase_mem_linkRewrite (cfg : Config) (w : World) (store : List Turn)
    (p1 : List Char) (evs1 : List Event) (h : Event.linkRewrite ∉ evs1) :
    (Event.linkRewrite ∈ (linkPhase cfg w store p1 evs1).events ↔
      (cfg.followLinks = true ∧
        (get_urls p1).filter (fun u => !(w.reachable u)) = [])) := by
  unfold linkPhase
  by_cases hl : cfg.followLinks
  · simp only [hl, if_true]
    by_cases hu : ((get_urls p1).filter (fun u => !(w.reachable u))).isEmpty
    · rw [if_pos hu, chatPhase_mem_linkRewrite]
      simp [h, List.isEmpty_iff.mp hu]
    · have hne : ¬ (get_urls p1).filter (fun u => !(w.reachable u)) = [] :=
        fun hc => absurd (List.isEmpty_iff.mpr hc) hu
      rw [if_neg hu]
      simp [h, hl, hne]
  · simp only [hl, Bool.false_eq_true, if_false]
    rw [chatPhase_mem_linkRewrite]
    simp [h, hl]

theorem c1_mode_dispatch (cfg : Config) (w : World) (store : List Turn) :
    (cfg.rag = true →
      Event.webRewrite ∉ (run_model cfg w store).events ∧
      Event.linkRewrite ∉ (run_model cfg w store).events ∧
      (∀ m msgs, Event.providerRequest m msgs ∉ (run_model cfg w store).events)) ∧
    (∀ p, cfg.rag = false →
      composePrompt cfg.prompt (clipboardContent cfg w) = some p →
      ((Event.webRewrite ∈ (run_model cfg w store).events ↔ cfg.webSearch = true) ∧
       (Event.linkRewrite ∈ (run_model cfg w store).events ↔
         (cfg.followLinks = true ∧
           (get_urls (stagedPrompt1 cfg w p)).filter (fun u => !(w.reachable u)) = [])))) := by
  constructor
  · intro hrag
    cases hcp : composePrompt cfg.prompt (clipboardContent cfg w) with
    | none =>
      simp [run_model, hcp]
    | some p =>
      simp [run_model, hcp, hrag, persistTurns]
  · intro p hrag hcp
    by_cases hw : cfg.webSearch
    · have hr : run_model cfg w store =
          linkPhase cfg w store (webStage cfg w p).1 (webStage cfg w p).2 := by
        simp [run_model, hcp, hrag, hw]
      have hs1 : stagedPrompt1 cfg w p = (webStage cfg w p).1 := by
        simp [stagedPrompt1, hw]
      have hnot : Event.linkRewrite ∉ (webStage cfg w p).2 := by simp [webStage]
      rw [hr, hs1]
      refine ⟨?_, ?_⟩
      · rw [linkPhase_mem_webRewrite]
        simp [webStage, hw]
      · exact linkPhase_mem_linkRewrite cfg w store (webStage cfg w p).1
          (webStage cfg w p).2 hnot
    · have hr : run_model cfg w store = linkPhase cfg w store p [] := by
        simp [run_model, hcp, hrag, hw]
      have hs1 : stagedPrompt1 cfg w p = p := by
        simp [stagedPrompt1, hw]
      rw [hr, hs1]
      refine ⟨?_, ?_⟩
      · rw [linkPhase_mem_webRewrite]
        simp [hw]
      · exact linkPhase_mem_linkRewrite cfg w store p [] (by simp)

/-- Witness for the C1 amended theorem at a concrete RAG invocation. -/
theorem c1_mode_dispatch_witness :
    Event.webRewrite ∉ (run_model ragCfg plainWorld []).events := by
  exact ((c1_mode_dispatch ragCfg plainWorld []).1 rfl).1

/-! ## C2: prompt composition -/

/-- C2: with both prompt and clipboard empty the invocation fails with the
empty-prompt error before any mode logic runs (no events, store
untouched); otherwise composition returns the clipboard alone, the prompt
alone, or `prompt ++ ": " ++ clipboard`. -/
theorem c2_prompt_composition (cfg : Config) (w : World) (store : List Turn) :
    (clipboardContent cfg w = [] → cfg.prompt = [] →
      (run_model cfg w store).outcome = Except.error RunErr.emptyPrompt ∧
      (run_model cfg w store).events = [] ∧
      (run_model cfg w store).store = store) ∧
    (∀ p : List Char, p ≠ [] → composePrompt p [] = some p) ∧
    (∀ c : List Char, c ≠ [] → composePrompt [] c = some c) ∧
    (∀ p c : List Char, p ≠ [] → c ≠ [] →
      composePrompt p c = some (p ++ colonSpace ++ c)) := by
  refine ⟨?_, ?_, ?_, ?_⟩
  · intro h1 h2
    have hcp : composePrompt cfg.prompt (clipboardContent cfg w) = none := by
      unfold composePrompt
      rw [h1, h2]
      simp
    simp [run_model, hcp]
  · intro p hp
    unfold composePrompt
    simp [hp]
  · intro c hc
    unfold composePrompt
    simp [hc]
  · intro p c hp hc
    unfold composePrompt
    simp [hp, hc]

/-- Witness for C2 at concrete inputs. -/
theorem c2_prompt_composition_witness :
    (run_model cfgEmptyPrompt plainWorld []).outcome = Except.error RunErr.emptyPrompt ∧
    composePrompt helloStr clipStr = some (helloStr ++ colonSpace ++ clipStr) := by
  have h := c2_prompt_composition cfgEmptyPrompt plainWorld []
  exact ⟨(h.1 (by decide) (by decide)).1, h.2.2.2 helloStr clipStr (by decide) (by decide)⟩

/-! ## Reduction lemmas for the phases -/

theorem run_model_to_linkPhase (cfg : Config) (w : World) (store : List Turn) (p : List Char)
    (hrag : cfg.rag = false)
    (hcp : composePrompt cfg.prompt (clipboardContent cfg w) = some p) :
    run_model cfg w store =
      linkPhase cfg w store (stagedPrompt1 cfg w p)
        (if cfg.webSearch then (webStage cfg w p).2 else []) := by
  by_cases hw : cfg.webSearch
  · simp [run_model, hcp, hrag, hw, stagedPrompt1]
  · simp [run_model, hcp, hrag, hw, stagedPrompt1]

theorem linkPhase_pass (cfg : Config) (w : World) (store : List Turn) (p1 : List Char)
    (evs1 : List Event)
    (hok : cfg.followLinks = true →
      (get_urls p1).filter (fun u => !(w.reachable u)) = []) :
    linkPhase cfg w store p1 evs1 =
      chatPhase cfg w store (stagedPrompt2 cfg w p1)
        (if cfg.followLinks then
          evs1 ++ (get_urls p1).map (fun u => Event.urlProbe u (w.reachable u)) ++
            (get_urls p1).map Event.pageFetch ++ [Event.linkRewrite]
         else evs1) := by
  by_cases hl : cfg.followLinks
  · unfold linkPhase stagedPrompt2
    rw [if_pos hl, if_pos (List.isEmpty_iff.mpr (hok hl)), if_pos hl, if_pos hl]
  · unfold linkPhase stagedPrompt2
    rw [if_neg hl, if_neg hl, if_neg hl]

theorem linkPhase_fail (cfg : Config) (w : World) (store : List Turn) (p1 : List Char)
    (evs1 : List Event) (hl : cfg.followLinks = true)
    (hne : (get_urls p1).filter (fun u => !(w.reachable u)) ≠ []) :
    linkPhase cfg w store p1 evs1 =
      { outcome := Except.error (RunErr.linkUnreachable
          ((get_urls p1).filter (fun u => !(w.reachable u)))), store := store,
        events := evs1 ++ (get_urls p1).map (fun u => Event.urlProbe u (w.reachable u)) } := by
  unfold linkPhase
  rw [if_pos hl, if_neg (fun hc => hne (List.isEmpty_iff.mp hc))]

theorem chatPhase_error (cfg : Config) (w : World) (store : List Turn) (p2 : List Char)
    (evs : List Event) (e : List Char) (h : w.providerReply = Except.error e) :
    chatPhase cfg w store p2 evs =
      { outcome := Except.error (RunErr.provider e), store := store,
        events := evs ++ [Event.providerRequest cfg.model (buildMessages cfg.systemRole
          (timestamp_n_minutes_ago w.utcNow cfg.timeoutMinutes) store p2)] } := by
  unfold chatPhase
  rw [h]

theorem chatPhase_ok (cfg : Config) (w : World) (store : List Turn) (p2 : List Char)
    (evs : List Event) (r : List Char) (h : w.providerReply = Except.ok r) :
    chatPhase cfg w store p2 evs =
      persistTurns p2 r w store
        (evs ++ [Event.providerRequest cfg.model (buildMessages cfg.systemRole
          (timestamp_n_minutes_ago w.utcNow cfg.timeoutMinutes) store p2)] ++
          [Event.printed r]) := by
  unfold chatPhase
  rw [h]

/-! ## C3: outgoing message list and post-reply persistence -/

/-- C3: every non-RAG invocation that reaches the provider sends exactly
`[{system, systemRole}] ++ windowed history ++ [{user, newPrompt}]`, and on
a successful reply appends exactly the user turn then the assistant turn;
in the plain end-to-end scenario (empty store, prompt `"Hello"`, reply
`"Hi there"`) the messages and the final store are exactly as the spec
states. -/
theorem c3_outgoing_messages :
    (∀ (cfg : Config) (w : World) (store : List Turn) (p : List Char),
      cfg.rag = false →
      composePrompt cfg.prompt (clipboardContent cfg w) = some p →
      (cfg.followLinks = true →
        (get_urls (stagedPrompt1 cfg w p)).filter (fun u => !(w.reachable u)) = []) →
      (Event.providerRequest cfg.model
          (buildMessages cfg.systemRole (timestamp_n_minutes_ago w.utcNow cfg.timeoutMinutes)
            store (stagedPrompt2 cfg w (stagedPrompt1 cfg w p))) ∈
          (run_model cfg w store).events ∧
        ∀ reply, w.providerReply = Except.ok reply →
          (run_model cfg w store).store =
            store ++
              [⟨w.tInsertUser, encode_base64 userStr,
                encode_base64 (stagedPrompt2 cfg w (stagedPrompt1 cfg w p))⟩,
               ⟨w.tInsertAssistant, encode_base64 assistantStr, encode_base64 reply⟩])) ∧
    ((run_model plainCfg plainWorld []).events =
        [Event.providerRequest plainCfg.model
            [Msg.mk systemStr helpfulStr, Msg.mk userStr helloStr],
          Event.printed hiThereStr, Event.dbInsert userStr helloStr,
          Event.dbInsert assistantStr hiThereStr] ∧
      ((run_model plainCfg plainWorld []).store).map
          (fun t => (decode_base64 t.role, decode_base64 t.content)) =
        [(userStr, helloStr), (assistantStr, hiThereStr)]) := by
  constructor
  · intro cfg w store p hrag hcp hok
    rw [run_model_to_linkPhase cfg w store p hrag hcp,
      linkPhase_pass cfg w store (stagedPrompt1 cfg w p) _ hok]
    constructor
    · cases hrep : w.providerReply with
      | error e =>
        rw [chatPhase_error cfg w store _ _ e hrep]
        simp
      | ok r =>
        rw [chatPhase_ok cfg w store _ _ r hrep]
        simp [persistTurns]
    · intro reply hrep
      rw [chatPhase_ok cfg w store _ _ reply hrep]
      simp [persistTurns, insert_conversation]
  · constructor
    · decide
    · have hs : (run_model plainCfg plainWorld []).store =
          [⟨1000001, encode_base64 userStr, encode_base64 helloStr⟩,
           ⟨1000002, encode_base64 assistantStr, encode_base64 hiThereStr⟩] := by decide
      rw [hs]
      simp [decode_encode_base64]

/-- Witness for the general part of C3 at the plain scenario. -/
theorem c3_outgoing_messages_witness :
    Event.providerRequest plainCfg.model
        [Msg.mk systemStr helpfulStr, Msg.mk userStr helloStr] ∈
      (run_model plainCfg plainWorld []).events := by
  have h := (c3_outgoing_messages.1 plainCfg plainWorld [] helloStr rfl (by decide)
    (fun hx => absurd hx (by decide))).1
  have e : buildMessages plainCfg.systemRole
      (timestamp_n_minutes_ago plainWorld.utcNow plainCfg.timeoutMinutes) []
      (stagedPrompt2 plainCfg plainWorld (stagedPrompt1 plainCfg plainWorld helloStr)) =
      [Msg.mk systemStr helpfulStr, Msg.mk userStr helloStr] := by decide
  rw [e] at h
  exact h

/-! ## C7: RAG reply assembly and deduplication -/

theorem dedupFirsts_mem {α : Type} [DecidableEq α] :
    ∀ (l seen : List α) (q : α), (q ∈ dedupFirsts l seen ↔ q ∈ l ∧ q ∉ seen)
  | [], seen, q => by simp [dedupFirsts]
  | p :: rest, seen, q => by
    simp only [dedupFirsts]
    by_cases hp : p ∈ seen
    · rw [if_pos hp, dedupFirsts_mem rest seen q]
      constructor
      · exact fun h => ⟨List.mem_cons_of_mem p h.1, h.2⟩
      · rintro ⟨h1, h2⟩
        rcases List.mem_cons.mp h1 with rfl | h1
        · exact absurd hp h2
        · exact ⟨h1, h2⟩
    · rw [if_neg hp]
      constructor
      · intro hq
        rcases List.mem_cons.mp hq with rfl | hq
        · exact ⟨List.mem_cons_self q rest, hp⟩
        · have h := (dedupFirsts_mem rest (p :: seen) q).mp hq
          exact ⟨List.mem_cons_of_mem p h.1, fun hs => h.2 (List.mem_cons_of_mem p hs)⟩
      · rintro ⟨h1, h2⟩
        rcases List.mem_cons.mp h1 with rfl | h1
        · exact List.mem_cons_self q _
        · by_cases hqp : q = p
          · subst hqp
            exact List.mem_cons_self q _
          · refine List.mem_cons_of_mem p ((dedupFirsts_mem rest (p :: seen) q).mpr
              ⟨h1, fun hs => ?_⟩)
            rcases List.mem_cons.mp hs with h | h
            · exact hqp h
            · exact h2 h

theorem dedupFirsts_sublist {α : Type} [DecidableEq α] :
    ∀ (l seen : List α), List.Sublist (dedupFirsts l seen) l
  | [], _ => by simp [dedupFirsts]
  | p :: rest, seen => by
    simp only [dedupFirsts]
    by_cases hp : p ∈ seen
    · rw [if_pos hp]
      exact (dedupFirsts_sublist rest seen).cons p
    · rw [if_neg hp]
      exact (dedupFirsts_sublist rest (p :: seen)).cons₂ p

theorem dedupFirsts_nodup {α : Type} [DecidableEq α] :
    ∀ (l seen : List α), (dedupFirsts l seen).Nodup
  | [], _ => by simp [dedupFirsts]
  | p :: rest, seen => by
    simp only [dedupFirsts]
    by_cases hp : p ∈ seen
    · rw [if_pos hp]
      exact dedupFirsts_nodup rest seen
    · rw [if_neg hp]
      refine List.nodup_cons.mpr ⟨?_, dedupFirsts_nodup rest (p :: seen)⟩
      intro hmem
      exact ((dedupFirsts_mem rest (p :: seen) p).mp hmem).2 (List.mem_cons_self p seen)

/-- The RAG reply printed by the code for answer `"42"` and no sources:
note the leading newline. -/
def c7CodeReply : List Char := "\nAnswer: 42\n\nSources:\n".data

/-- The reply the claim predicts for answer `"42"` and no sources. -/
def c7ClaimReply : List Char := "Answer: 42\n\nSources:\n".data

/-- C7 counterexample: the code prints `f"\nAnswer: ..."` with a leading
newline, so the printed RAG reply is not the claimed
`"Answer: {answer}\n\nSources:\n" ++ bullets`. -/
theorem c7_counterexample :
    Event.printed c7CodeReply ∈ (run_model ragCfg plainWorld []).events ∧
    Event.printed c7ClaimReply ∉ (run_model ragCfg plainWorld []).events := by decide

/-- C7 amended: the printed RAG reply is
`"\nAnswer: {answer}\n\nSources:\n"` followed by one bullet line
`- "{excerpt}" {link}` per distinct `(excerpt, link)` pair; the pairs are
deduplicated (no duplicates, order preserved, and a pair appears exactly
when some source produces it). -/
theorem c7_rag_reply (cfg : Config) (w : World) (store : List Turn) (p : List Char)
    (hrag : cfg.rag = true)
    (hcp : composePrompt cfg.prompt (clipboardContent cfg w) = some p) :
    Event.printed (ragReplyText w.ragResponse cfg.ragExcerptLength cfg.ragSourceLinkformat
        cfg.ragDocDir) ∈ (run_model cfg w store).events ∧
    ragReplyText w.ragResponse cfg.ragExcerptLength cfg.ragSourceLinkformat cfg.ragDocDir =
      nlAnswerPrefixStr ++ w.ragResponse.result ++ sourcesHeaderStr ++
        ((dedupFirsts (ragSourcePairs w.ragResponse cfg.ragExcerptLength
            cfg.ragSourceLinkformat cfg.ragDocDir) []).map
          (fun q => bulletOpenStr ++ q.1 ++ bulletMidStr ++ q.2 ++ nlStr)).flatten ∧
    (dedupFirsts (ragSourcePairs w.ragResponse cfg.ragExcerptLength
        cfg.ragSourceLinkformat cfg.ragDocDir) []).Nodup ∧
    List.Sublist
      (dedupFirsts (ragSourcePairs w.ragResponse cfg.ragExcerptLength
        cfg.ragSourceLinkformat cfg.ragDocDir) [])
      (ragSourcePairs w.ragResponse cfg.ragExcerptLength cfg.ragSourceLinkformat
        cfg.ragDocDir) ∧
    (∀ q, q ∈ dedupFirsts (ragSourcePairs w.ragResponse cfg.ragExcerptLength
        cfg.ragSourceLinkformat cfg.ragDocDir) [] ↔
      q ∈ ragSourcePairs w.ragResponse cfg.ragExcerptLength cfg.ragSourceLinkformat
        cfg.ragDocDir) := by
  refine ⟨?_, rfl, dedupFirsts_nodup _ _, dedupFirsts_sublist _ _, ?_⟩
  · simp [run_model, hcp, hrag, persistTurns]
  · intro q
    rw [dedupFirsts_mem]
    simp

/-- Witness for C7 at a concrete RAG invocation. -/
theorem c7_rag_reply_witness :
    Event.printed (ragReplyText plainWorld.ragResponse ragCfg.ragExcerptLength
        ragCfg.ragSourceLinkformat ragCfg.ragDocDir) ∈
      (run_model ragCfg plainWorld []).events :=
  (c7_rag_reply ragCfg plainWorld [] helloStr rfl (by decide)).1

/-! ## C9: provider failure leaves no trace -/

/-- True exactly on the mandatory chat-completion request event. -/
def eventIsProviderRequest (e : Event) : Bool :=
  match e with
  | Event.providerRequest _ _ => true
  | Event.ragQuery _ => false
  | Event.auxProviderRequest _ => false
  | Event.webSearchRequest _ => false
  | Event.urlProbe _ _ => false
  | Event.pageFetch _ => false
  | Event.webRewrite => false
  | Event.linkRewrite => false
  | Event.printed _ => false
  | Event.dbInsert _ _ => false

/-- C9: when the single mandatory chat-completion request fails, the
invocation aborts with a provider error, nothing is printed, no turn is
appended (the store is unchanged), and exactly one chat-completion request
was attempted — no retry. -/
theorem c9_provider_failure (cfg : Config) (w : World) (store : List Turn)
    (p e : List Char) (hrag : cfg.rag = false)
    (hcp : composePrompt cfg.prompt (clipboardContent cfg w) = some p)
    (hfail : w.providerReply = Except.error e)
    (hok : cfg.followLinks = true →
      (get_urls (stagedPrompt1 cfg w p)).filter (fun u => !(w.reachable u)) = []) :
    (run_model cfg w store).outcome = Except.error (RunErr.provider e) ∧
    (run_model cfg w store).store = store ∧
    (∀ t, Event.printed t ∉ (run_model cfg w store).events) ∧
    (∀ r c, Event.dbInsert r c ∉ (run_model cfg w store).events) ∧
    (run_model cfg w store).events.countP eventIsProviderRequest = 1 := by
  rw [run_model_to_linkPhase cfg w store p hrag hcp,
    linkPhase_pass cfg w store (stagedPrompt1 cfg w p) _ hok,
    chatPhase_error cfg w store _ _ e hfail]
  refine ⟨rfl, rfl, ?_, ?_, ?_⟩
  · intro t
    by_cases hw : cfg.webSearch <;> by_cases hl : cfg.followLinks <;>
      simp [hw, hl, webStage]
  · intro r c
    by_cases hw : cfg.webSearch <;> by_cases hl : cfg.followLinks <;>
      simp [hw, hl, webStage]
  · by_cases hw : cfg.webSearch <;> by_cases hl : cfg.followLinks <;>
      simp [hw, hl, webStage, List.countP_append, List.countP_map, eventIsProviderRequest,
        List.countP_eq_zero, Function.comp_def]

/-- Witness for C9: plain mode with a failing provider. -/
theorem c9_provider_failure_witness :
    (run_model plainCfg failWorld []).outcome = Except.error (RunErr.provider boomStr) ∧
    (run_model plainCfg failWorld []).store = [] ∧
    (run_model plainCfg failWorld []).events.countP eventIsProviderRequest = 1 := by
  have h := c9_provider_failure plainCfg failWorld [] helloStr boomStr rfl (by decide) rfl
    (fun hx => absurd hx (by decide))
  exact ⟨h.1, h.2.1, h.2.2.2.2⟩

/-! ## C10: unreachable link aborts before the provider call -/

/-- C10: in link-follow mode (web search off), if some URL extracted from
the composed prompt is unreachable, the invocation aborts carrying exactly
the unreachable URLs, before any provider request (mandatory or auxiliary),
with nothing printed and nothing appended to the store. -/
theorem c10_link_unreachable (cfg : Config) (w : World) (store : List Turn)
    (p : List Char) (hrag : cfg.rag = false) (hweb : cfg.webSearch = false)
    (hl : cfg.followLinks = true)
    (hcp : composePrompt cfg.prompt (clipboardContent cfg w) = some p)
    (hne : (get_urls p).filter (fun u => !(w.reachable u)) ≠ []) :
    (run_model cfg w store).outcome =
      Except.error (RunErr.linkUnreachable
        ((get_urls p).filter (fun u => !(w.reachable u)))) ∧
    (run_model cfg w store).store = store ∧
    (∀ m msgs, Event.providerRequest m msgs ∉ (run_model cfg w store).events) ∧
    (∀ msgs, Event.auxProviderRequest msgs ∉ (run_model cfg w store).events) ∧
    (∀ r c, Event.dbInsert r c ∉ (run_model cfg w store).events) ∧
    (∀ t, Event.printed t ∉ (run_model cfg w store).events) := by
  have hs1 : stagedPrompt1 cfg w p = p := by simp [stagedPrompt1, hweb]
  rw [run_model_to_linkPhase cfg w store p hrag hcp]
  rw [hs1, if_neg (by rw [hweb]; exact Bool.false_ne_true)]
  rw [linkPhase_fail cfg w store p [] hl hne]
  refine ⟨rfl, rfl, ?_, ?_, ?_, ?_⟩ <;> simp

/-- The URL used in the C10 witness. -/
def xUrlStr : List Char := "http://x.example".data

/-- Witness for C10: one unreachable URL in the prompt. -/
theorem c10_link_unreachable_witness :
    (run_model linkCfg deadWorld []).outcome =
      Except.error (RunErr.linkUnreachable [xUrlStr]) ∧
    (run_model linkCfg deadWorld []).store = [] := by
  have h := c10_link_unreachable linkCfg deadWorld [] linkCfg.prompt rfl rfl rfl
    (by decide) (by decide)
  have e : (get_urls linkCfg.prompt).filter (fun u => !(deadWorld.reachable u)) =
      [xUrlStr] := by decide
  rw [e] at h
  exact ⟨h.1, h.2.1⟩

end LlmCli
